import Mathlib

/-!
Shallow embedding of the `timbal-ai/blueprint-ui` HTTP client facade.

The definitions below are translated from the repository sources:
  - `src/timbal/client.ts` (class `Timbal`: `buildUrl`, `buildHeaders`, `_fetch`,
    `request`, `stream`, `query`),
  - `src/timbal/types.ts` (`TimbalConfig`, `TimbalApiResponse`, `QueryParams`),
  - `src/auth/config.ts` (`authConfig.timbalIAM`).

JavaScript strings are modelled as Lean `String` (for headers and messages) and
as `List Char` (for the character-level slicing done by `buildUrl`).  JS
`undefined`-able values are `Option`; JS truthiness of an optional string
(`undefined` and `""` are falsy) is the `truthy` predicate.  The network is
modelled as a behaviour function `Nat → FetchBehavior` giving, for each attempt
index, what the underlying `fetch` does on that attempt.  Side effects that the
claims are about (the timeout watchdog, retry backoff sleeps) are recorded as
explicit trace data.  The `console.log` calls, the JSON `Content-Type`
defaulting on `options.body`, and `reader.releaseLock()` are not modelled: no
claim concerns them.
-/

/-- Truthiness of an optional JS string: `undefined` and `""` are falsy,
every other string is truthy. -/
def truthy : Option String → Bool
  | none => false
  | some s => !s.isEmpty

/-- A JS `Headers` object, as a list of (name, value) pairs.  The `Headers`
API is case-insensitive in header names; names are stored lowercased, exactly
as the platform object normalizes them. -/
abbrev HeaderMap := List (String × String)

/-- ASCII lowercasing of a header name, character by character (the
case-insensitive normalization the platform `Headers` object performs). -/
def lowerName (s : String) : String :=
  String.mk (s.data.map Char.toLower)

/-- `headers.set(k, v)`: removes any entry whose stored (lowercased) name
matches the lowercased `k`, then appends the new entry. -/
def headersSet (hs : HeaderMap) (k v : String) : HeaderMap :=
  hs.filter (fun p => p.1 != lowerName k) ++ [(lowerName k, v)]

/-- `headers.get(k)`: first entry whose stored name matches the lowercased
`k`, if any. -/
def headersGet (hs : HeaderMap) (k : String) : Option String :=
  (hs.find? (fun p => p.1 == lowerName k)).map (fun p => p.2)

/-- Sequence of `headers.set` calls, one per entry of `l` in order (the
`forEach` loops in `buildHeaders`). -/
def headersSetAll (hs : HeaderMap) (l : HeaderMap) : HeaderMap :=
  l.foldl (fun acc kv => headersSet acc kv.1 kv.2) hs

/-- `TimbalConfig` from `src/timbal/types.ts`: every field is optional. -/
structure TimbalConfig where
  apiKey : Option String := none
  baseUrl : Option String := none
  defaultHeaders : Option HeaderMap := none
  timeout : Option Nat := none
  retryAttempts : Option Nat := none
  retryDelay : Option Nat := none
  sessionToken : Option String := none
deriving DecidableEq, Repr

/-- The `import.meta.env` variables consulted by `client.ts`. -/
structure Env where
  VITE_TIMBAL_API_KEY : Option String := none
  VITE_TIMBAL_BASE_URL : Option String := none
  VITE_TIMBAL_ORG_ID : Option String := none
  VITE_TIMBAL_KB_ID : Option String := none
deriving DecidableEq, Repr

/-- The slice of `authConfig` (from `src/auth/config.ts`) that the `Timbal`
constructor reads. -/
structure AuthConfig where
  timbalIAM : Bool
deriving DecidableEq, Repr

/-- The `Timbal` client facade: it owns its live configuration. -/
structure Timbal where
  config : TimbalConfig
deriving DecidableEq, Repr

/-- The `Timbal` constructor (`client.ts` lines 10-30): defaults `apiKey` and
`baseUrl` from the environment with `??` (nullish coalescing, so `""` passes
through), validates that either Timbal IAM is enabled or an apiKey is truthy,
validates that `baseUrl` is truthy, and stores the normalized config
(`defaultHeaders` defaulted to the empty map). -/
def Timbal.construct (auth : AuthConfig) (env : Env) (config : TimbalConfig) :
    Except String Timbal :=
  let apiKey := config.apiKey <|> env.VITE_TIMBAL_API_KEY
  let baseUrl := config.baseUrl <|> env.VITE_TIMBAL_BASE_URL
  if !auth.timbalIAM && !(truthy apiKey) then
    Except.error "API key is required when Timbal IAM is not enabled"
  else if !(truthy baseUrl) then
    Except.error "Base URL is required. Set VITE_TIMBAL_BASE_URL in your .env file or pass it in config."
  else
    Except.ok { config := { config with
      apiKey := apiKey
      baseUrl := baseUrl
      defaultHeaders := some (config.defaultHeaders.getD []) } }

/-- Modelled from the spec: `updateSessionToken` (Token Sync, spec section 4.7) is
invoked on the `timbal` singleton from `src/auth/provider.tsx`, but its
definition (in the client module) is not among the provided sources.  Per the
spec it "replaces the live `sessionToken` field on the facade's configuration
in place"; in this functional embedding the in-place single-field write is the
update of only the `sessionToken` field of the client's configuration. -/
def Timbal.updateSessionToken (t : Timbal) (token : Option String) : Timbal :=
  { t with config := { t.config with sessionToken := token } }

/-- `buildUrl` (`client.ts` lines 32-38) at the character level: drop one
trailing slash character from the base (`endsWith('/')` / `slice(0, -1)`),
prepend a slash to the endpoint unless it already starts with one, and
concatenate.  The method reads the base from `this.config.baseUrl`; it is a
parameter here. -/
def buildUrl (baseUrl endpoint : List Char) : List Char :=
  let b := if baseUrl.getLast? = some '/' then baseUrl.dropLast else baseUrl
  let p := if endpoint.head? = some '/' then endpoint else '/' :: endpoint
  b ++ p

/-- `buildHeaders` (`client.ts` lines 40-66): start from the configured
default headers, then set exactly one authorization header by priority
(`apiKey` wins over `sessionToken`, both by JS truthiness), then apply the
per-call `options.headers` entries with `set` (later write wins). -/
def buildHeaders (cfg : TimbalConfig) (optionsHeaders : HeaderMap) : HeaderMap :=
  let headers : HeaderMap := []
  let headers := headersSetAll headers (cfg.defaultHeaders.getD [])
  let headers :=
    if truthy cfg.apiKey then
      headersSet headers "Authorization" ("Bearer " ++ cfg.apiKey.getD "")
    else if truthy cfg.sessionToken then
      headersSet headers "x-auth-token" (cfg.sessionToken.getD "")
    else headers
  headersSetAll headers optionsHeaders

/-- The machine-readable error codes carried by `TimbalApiError` values.  The
transport catch block produces `TIMEOUT_ERROR`, `NETWORK_ERROR` and
`SERVER_ERROR`; `stream` produces `NO_BODY`; the response factory produces a
status-derived code (`httpStatus n`). -/
inductive ErrorCode where
  | TIMEOUT_ERROR
  | NETWORK_ERROR
  | SERVER_ERROR
  | NO_BODY
  | httpStatus (status : Nat)
deriving DecidableEq, Repr

/-- `TimbalApiError` (`src/timbal/errors.ts`): message, HTTP status code (0 for
transport-level failures) and machine-readable code. -/
structure TimbalApiError where
  message : String
  statusCode : Nat
  code : ErrorCode
deriving DecidableEq, Repr

/-- Modelled from the spec: the factory `TimbalApiError.fromResponse` lives in
`src/timbal/errors.ts`, which is not among the provided sources.  Per spec
section 4.1 it classifies a failed HTTP response synchronously from the
response's status and an optional server-supplied JSON body message, falling
back to a generic message built from the numeric status, with the error's
`statusCode` equal to the response status and a status-derived code. -/
def TimbalApiError.fromResponse (status : Nat) (bodyMessage : Option String) :
    TimbalApiError :=
  { message := bodyMessage.getD ("HTTP error! status: " ++ toString status)
    statusCode := status
    code := ErrorCode.httpStatus status }

/-- The JS values that can land in a `catch` block around the transport:
an abort raised by the timeout watchdog (`error.name === 'AbortError'`), a
`TypeError` from low-level connectivity failure, an already-classified
`TimbalApiError`, or any other thrown value (carried as its string
interpolation `${error}`).  The four cases are disjoint in JS: a
`TimbalApiError` is neither named `AbortError` nor a `TypeError`. -/
inductive RawError where
  | abortError
  | typeError (message : String)
  | apiError (e : TimbalApiError)
  | other (description : String)
deriving DecidableEq, Repr

/-- How one attempt's response body behaves when read incrementally by
`stream`: the reads deliver the listed chunks and then either finish (`done`)
or raise an error. -/
inductive StreamEnd where
  | done
  | fail (e : RawError)
deriving DecidableEq, Repr

/-- A raw HTTP response as `_fetch` sees it: its status, the payload that
`response.json()` would produce, the server message the error factory would
extract from a failed response, and the readable body (`none` models a null
`response.body`). -/
structure Response where
  status : Nat
  jsonData : String := ""
  bodyMessage : Option String := none
  body : Option (List String × StreamEnd) := none
deriving DecidableEq, Repr

/-- `response.ok`: status in the range 200-299. -/
def Response.ok (r : Response) : Bool :=
  decide (200 ≤ r.status) && decide (r.status < 300)

/-- What the underlying `fetch` does on one attempt: resolve with a response,
or reject with a thrown value. -/
inductive FetchBehavior where
  | respond (r : Response)
  | reject (e : RawError)
deriving DecidableEq, Repr

/-- The catch block of `_fetch` (`client.ts` lines 93-109): timeout abort
becomes `TIMEOUT_ERROR`/0, a `TypeError` becomes `NETWORK_ERROR`/0 with the
original message appended, an already-classified `TimbalApiError` is rethrown
unchanged, and anything else becomes `SERVER_ERROR`/0 with the original
failure interpolated into the message. -/
def classifyTransportError : RawError → TimbalApiError
  | RawError.abortError =>
    { message := "Request timeout", statusCode := 0, code := ErrorCode.TIMEOUT_ERROR }
  | RawError.typeError message =>
    { message := "Network error: " ++ message, statusCode := 0, code := ErrorCode.NETWORK_ERROR }
  | RawError.apiError e => e
  | RawError.other description =>
    { message := "Unknown error occurred: " ++ description, statusCode := 0
      code := ErrorCode.SERVER_ERROR }

deriving instance DecidableEq for Except

/-- Result of one `_fetch` call, together with its watchdog-timer trace:
whether a timer was started (`setTimeout` runs only when `timeout` is
configured) and how many `clearTimeout` calls the executed path performed. -/
structure FetchResult where
  outcome : Except TimbalApiError Response
  timerStarted : Bool
  clearCount : Nat
deriving DecidableEq, Repr

/-- `_fetch` (`client.ts` lines 68-110) on one attempt behaviour.  A resolved
response first clears the watchdog (line 86); a non-ok response then throws
the factory error, which the catch block clears again (line 94) and rethrows
unchanged through the classification chain; a rejected fetch is cleared once
in the catch block and classified. -/
def fetchOnce (cfg : TimbalConfig) (b : FetchBehavior) : FetchResult :=
  let started := cfg.timeout.isSome
  let clear1 : Nat := if cfg.timeout.isSome then 1 else 0
  match b with
  | FetchBehavior.respond r =>
    if r.ok then
      { outcome := Except.ok r, timerStarted := started, clearCount := clear1 }
    else
      { outcome := Except.error (classifyTransportError (RawError.apiError
          (TimbalApiError.fromResponse r.status r.bodyMessage)))
        timerStarted := started
        clearCount := clear1 + clear1 }
  | FetchBehavior.reject e =>
    { outcome := Except.error (classifyTransportError e)
      timerStarted := started
      clearCount := clear1 }

/-- `TimbalApiResponse` from `src/timbal/types.ts`, as constructed by
`request` on success (`message` and `error` are never set there). -/
structure TimbalApiResponse where
  data : String
  success : Bool
  statusCode : Nat
deriving DecidableEq, Repr

/-- The retryable-error test of `request`/`stream` (`client.ts` lines
131-134 and 166-169): code `TIMEOUT_ERROR` or `NETWORK_ERROR`, or HTTP
status at least 500. -/
def retryableError (e : TimbalApiError) : Bool :=
  decide (e.code = ErrorCode.TIMEOUT_ERROR) ||
  decide (e.code = ErrorCode.NETWORK_ERROR) ||
  decide (500 ≤ e.statusCode)

/-- The budget half of the retry guard: `retryCount < this.config.retryAttempts`.
When `retryAttempts` is `undefined` the JS comparison `n < undefined` is
`false` for every `n`, so the guard never passes. -/
def retryGuard (cfg : TimbalConfig) (retryCount : Nat) : Bool :=
  match cfg.retryAttempts with
  | some n => decide (retryCount < n)
  | none => false

/-- The linear backoff delay slept before the retry that follows failed
attempt `retryCount`: `retryDelay * (retryCount + 1)`.  An unset `retryDelay`
multiplies to `NaN`, which `setTimeout` clamps to an immediate fire; that is
modelled as 0. -/
def backoffDelay (cfg : TimbalConfig) (retryCount : Nat) : Nat :=
  cfg.retryDelay.getD 0 * (retryCount + 1)

/-- `request` (`client.ts` lines 112-144) starting at attempt `retryCount`:
call `_fetch`, on success decode and wrap in the envelope; on a
`TimbalApiError` retry after the backoff delay when the error is retryable
and the budget allows, else propagate unchanged.  Returns the outcome, the
number of `_fetch` invocations performed, and the slept delays in order. -/
def requestAux (cfg : TimbalConfig) (beh : Nat → FetchBehavior) (retryCount : Nat) :
    Except TimbalApiError TimbalApiResponse × Nat × List Nat :=
  match (fetchOnce cfg (beh retryCount)).outcome with
  | Except.ok r =>
    (Except.ok { data := r.jsonData, success := true, statusCode := r.status }, 1, [])
  | Except.error e =>
    if h : (retryableError e && retryGuard cfg retryCount) = true then
      let rest := requestAux cfg beh (retryCount + 1)
      (rest.1, rest.2.1 + 1, backoffDelay cfg retryCount :: rest.2.2)
    else
      (Except.error e, 1, [])
termination_by cfg.retryAttempts.getD 0 + 1 - retryCount
decreasing_by
  rw [Bool.and_eq_true] at h
  rcases h with ⟨-, hg⟩
  unfold retryGuard at hg
  cases hcfg : cfg.retryAttempts with
  | none => rw [hcfg] at hg; exact absurd hg (by simp)
  | some n =>
    rw [hcfg] at hg
    simp only [decide_eq_true_eq] at hg
    simp only [hcfg, Option.getD_some]
    omega

/-- The public `request` entry point: attempt counter starts at 0. -/
def Timbal.request (t : Timbal) (beh : Nat → FetchBehavior) :
    Except TimbalApiError TimbalApiResponse × Nat × List Nat :=
  requestAux t.config beh 0

/-- The retry test of `stream`'s catch block: only values that are
`TimbalApiError` instances are inspected (`error instanceof TimbalApiError`);
raw thrown values are never retried. -/
def streamRetryable (e : RawError) : Bool :=
  match e with
  | RawError.apiError ae => retryableError ae
  | _ => false

/-- `stream` (`client.ts` lines 146-180) starting at attempt `retryCount`:
obtain a response via `_fetch`; throw `NO_BODY` when the body is null; read
the body, yielding each chunk; any error caught (from the fetch, the null-body
throw, or a read) is retried by restarting the whole stream at attempt
`retryCount + 1` after the backoff delay when it is a retryable
`TimbalApiError` within budget, with already-yielded chunks staying yielded
(`yield*` is preceded by the failed attempt's output); otherwise it
propagates raw.  Returns the yielded chunks, the final outcome, the number of
`_fetch` invocations, and the slept delays. -/
def streamAux (cfg : TimbalConfig) (beh : Nat → FetchBehavior) (retryCount : Nat) :
    List String × Except RawError Unit × Nat × List Nat :=
  match (fetchOnce cfg (beh retryCount)).outcome with
  | Except.error e =>
    if h : (streamRetryable (RawError.apiError e) && retryGuard cfg retryCount) = true then
      let rest := streamAux cfg beh (retryCount + 1)
      (rest.1, rest.2.1, rest.2.2.1 + 1, backoffDelay cfg retryCount :: rest.2.2.2)
    else
      ([], Except.error (RawError.apiError e), 1, [])
  | Except.ok r =>
    match r.body with
    | none =>
      let e := RawError.apiError
        { message := "Response body is null", statusCode := r.status, code := ErrorCode.NO_BODY }
      if h : (streamRetryable e && retryGuard cfg retryCount) = true then
        let rest := streamAux cfg beh (retryCount + 1)
        (rest.1, rest.2.1, rest.2.2.1 + 1, backoffDelay cfg retryCount :: rest.2.2.2)
      else
        ([], Except.error e, 1, [])
    | some (chunks, StreamEnd.done) => (chunks, Except.ok (), 1, [])
    | some (chunks, StreamEnd.fail e) =>
      if h : (streamRetryable e && retryGuard cfg retryCount) = true then
        let rest := streamAux cfg beh (retryCount + 1)
        (chunks ++ rest.1, rest.2.1, rest.2.2.1 + 1, backoffDelay cfg retryCount :: rest.2.2.2)
      else
        (chunks, Except.error e, 1, [])
termination_by cfg.retryAttempts.getD 0 + 1 - retryCount
decreasing_by
  all_goals
    rw [Bool.and_eq_true] at h
    rcases h with ⟨-, hg⟩
    unfold retryGuard at hg
    cases hcfg : cfg.retryAttempts with
    | none => rw [hcfg] at hg; exact absurd hg (by simp)
    | some n =>
      rw [hcfg] at hg
      simp only [decide_eq_true_eq] at hg
      simp only [hcfg, Option.getD_some]
      omega

/-- The public `stream` entry point: attempt counter starts at 0. -/
def Timbal.stream (t : Timbal) (beh : Nat → FetchBehavior) :
    List String × Except RawError Unit × Nat × List Nat :=
  streamAux t.config beh 0

/-- `QueryParams` from `src/timbal/types.ts`. -/
structure QueryParams where
  orgId : Option String := none
  kbId : Option String := none
  sql : String
deriving DecidableEq, Repr

/-- Outcome of `query`: either the synchronous configuration error thrown
before any network activity, or the completed `request` call with its attempt
trace. -/
inductive QueryOutcome where
  | configError (message : String)
  | completed (result : Except TimbalApiError TimbalApiResponse)
      (attempts : Nat) (delays : List Nat)
deriving DecidableEq, Repr

/-- `query` (`client.ts` lines 182-195): resolve `orgId`/`kbId` from the
params with `??`-fallback to the environment, throw synchronously when either
is falsy, otherwise issue the POST through `request`. -/
def Timbal.query (t : Timbal) (env : Env) (params : QueryParams)
    (beh : Nat → FetchBehavior) : QueryOutcome :=
  let orgId := params.orgId <|> env.VITE_TIMBAL_ORG_ID
  let kbId := params.kbId <|> env.VITE_TIMBAL_KB_ID
  if !(truthy orgId) || !(truthy kbId) then
    QueryOutcome.configError "orgId and kbId are required for query"
  else
    match t.request beh with
    | (res, attempts, delays) => QueryOutcome.completed res attempts delays

/-- Looking up the key just written by `headersSet` yields the written value. -/
theorem headersGet_headersSet_self (hs : HeaderMap) (k v : String) :
    headersGet (headersSet hs k v) k = some v := by
  unfold headersGet headersSet
  induction hs with
  | nil => simp
  | cons p t ih =>
    by_cases hp : p.1 = lowerName k
    · simp [List.filter_cons, hp]
    · simp [List.filter_cons, hp]

/-- `headersSet` leaves lookups of case-insensitively different keys alone. -/
theorem headersGet_headersSet_ne (hs : HeaderMap) (k k' v : String)
    (h : lowerName k' ≠ lowerName k) :
    headersGet (headersSet hs k v) k' = headersGet hs k' := by
  unfold headersGet headersSet
  induction hs with
  | nil =>
    rw [List.filter_nil, List.nil_append,
      List.find?_cons_of_neg _ (by simp [Ne.symm h]), List.find?_nil]
  | cons p t ih =>
    by_cases hp : p.1 = lowerName k
    · rw [List.filter_cons_of_neg (by simp [hp]),
        List.find?_cons_of_neg _ (by simp [hp, Ne.symm h])]
      exact ih
    · rw [List.filter_cons_of_pos (by simp [hp])]
      by_cases hp' : p.1 = lowerName k'
      · rw [List.cons_append, List.find?_cons_of_pos _ (by simp [hp']),
          List.find?_cons_of_pos _ (by simp [hp'])]
      · rw [List.cons_append, List.find?_cons_of_neg _ (by simp [hp']),
          List.find?_cons_of_neg _ (by simp [hp'])]
        exact ih

/-- A run of `headers.set` calls none of whose keys matches `k`
(case-insensitively) leaves the lookup of `k` alone. -/
theorem headersGet_headersSetAll_ne (l : HeaderMap) (hs : HeaderMap) (k : String)
    (h : ∀ kv ∈ l, lowerName kv.1 ≠ lowerName k) :
    headersGet (headersSetAll hs l) k = headersGet hs k := by
  induction l generalizing hs with
  | nil => rfl
  | cons p t ih =>
    unfold headersSetAll
    simp only [List.foldl_cons]
    rw [show List.foldl (fun acc kv => headersSet acc kv.1 kv.2) (headersSet hs p.1 p.2) t
        = headersSetAll (headersSet hs p.1 p.2) t from rfl]
    rw [ih _ (fun kv hkv => h kv (List.mem_cons_of_mem _ hkv))]
    exact headersGet_headersSet_ne hs p.1 k p.2 (h p (List.mem_cons_self _ _)).symm

/-- `headers.set` run over an empty override list is the identity. -/
theorem headersSetAll_nil (hs : HeaderMap) : headersSetAll hs [] = hs := rfl

/-- A configuration with both auth credentials set whose configured default
headers themselves carry a session header. -/
def cfgBothWithSessionDefault : TimbalConfig :=
  { apiKey := some "k", sessionToken := some "s"
    defaultHeaders := some [("x-auth-token", "evil")] }

/-- C8: `buildUrl` strips a single trailing slash from the configured base and
adds a leading slash to the endpoint when one is missing, so a base with one
trailing slash builds the same URL as the same base without it, an endpoint
already carrying its leading slash builds the same URL as one without it, and
the two concrete spec examples both produce `https://api.x.com/orders`. -/
theorem buildUrl_slash_normalization_c8 (b e : List Char)
    (hb : b.getLast? ≠ some '/') (he : e.head? ≠ some '/') :
    buildUrl (b ++ ['/']) e = buildUrl b e
    ∧ buildUrl b ('/' :: e) = buildUrl b e
    ∧ buildUrl "https://api.x.com/".data "orders".data = "https://api.x.com/orders".data
    ∧ buildUrl "https://api.x.com".data "/orders".data = "https://api.x.com/orders".data := by
  refine ⟨?_, ?_, by decide, by decide⟩
  · unfold buildUrl
    rw [if_pos (List.getLast?_concat b), List.dropLast_concat, if_neg hb]
  · unfold buildUrl
    rw [if_pos (show ('/' :: e).head? = some '/' from rfl), if_neg he]

/-- C8 witness: instantiated at the spec's own base and endpoint. -/
theorem buildUrl_slash_normalization_c8_witness :
    ("https://api.x.com".data.getLast? ≠ some '/')
    ∧ ("orders".data.head? ≠ some '/')
    ∧ (buildUrl ("https://api.x.com".data ++ ['/']) "orders".data
        = buildUrl "https://api.x.com".data "orders".data
      ∧ buildUrl "https://api.x.com".data ('/' :: "orders".data)
        = buildUrl "https://api.x.com".data "orders".data
      ∧ buildUrl "https://api.x.com/".data "orders".data = "https://api.x.com/orders".data
      ∧ buildUrl "https://api.x.com".data "/orders".data = "https://api.x.com/orders".data) :=
  ⟨by decide, by decide,
    buildUrl_slash_normalization_c8 "https://api.x.com".data "orders".data
      (by decide) (by decide)⟩

/-- C5: the transport catch block classifies a thrown value as follows — a
timeout-triggered abort becomes `TIMEOUT_ERROR` with statusCode 0, a
`TypeError` becomes `NETWORK_ERROR` with statusCode 0, an already-classified
`TimbalApiError` is rethrown unchanged, and any other failure becomes
`SERVER_ERROR` with statusCode 0 and a message carrying the original
failure's textual description. -/
theorem fetch_error_classification_c5 (cfg : TimbalConfig) (m d : String)
    (e : TimbalApiError) :
    (fetchOnce cfg (FetchBehavior.reject RawError.abortError)).outcome =
      Except.error { message := "Request timeout", statusCode := 0
                     code := ErrorCode.TIMEOUT_ERROR }
    ∧ (fetchOnce cfg (FetchBehavior.reject (RawError.typeError m))).outcome =
      Except.error { message := "Network error: " ++ m, statusCode := 0
                     code := ErrorCode.NETWORK_ERROR }
    ∧ (fetchOnce cfg (FetchBehavior.reject (RawError.apiError e))).outcome = Except.error e
    ∧ (fetchOnce cfg (FetchBehavior.reject (RawError.other d))).outcome =
      Except.error { message := "Unknown error occurred: " ++ d, statusCode := 0
                     code := ErrorCode.SERVER_ERROR } :=
  ⟨rfl, rfl, rfl, rfl⟩

/-- C9: whenever a timeout is configured, the single HTTP exchange starts the
watchdog timer and clears it on every exit path — 2xx success, non-2xx error
classification, and transport-level exception alike — so at least one
`clearTimeout` runs on the executed path and no scheduled cancellation
outlives the exchange. -/
theorem fetch_timer_cleared_c9 (cfg : TimbalConfig) (b : FetchBehavior)
    (h : cfg.timeout.isSome = true) :
    (fetchOnce cfg b).timerStarted = true ∧ 1 ≤ (fetchOnce cfg b).clearCount := by
  unfold fetchOnce
  cases b with
  | respond r => by_cases hr : r.ok <;> simp [hr, h]
  | reject e => simp [h]

/-- C9 witness: a configured 5-second timeout with a plain 200 response. -/
theorem fetch_timer_cleared_c9_witness :
    ({ timeout := some 5000 } : TimbalConfig).timeout.isSome = true
    ∧ ((fetchOnce { timeout := some 5000 }
          (FetchBehavior.respond { status := 200 })).timerStarted = true
      ∧ 1 ≤ (fetchOnce { timeout := some 5000 }
          (FetchBehavior.respond { status := 200 })).clearCount) :=
  ⟨rfl, fetch_timer_cleared_c9 { timeout := some 5000 }
    (FetchBehavior.respond { status := 200 }) rfl⟩

/-- When the resolved `apiKey` is falsy and a nonempty `sessionToken` is
present, `buildHeaders` carries `x-auth-token: <sessionToken>` through any
per-call overrides that do not touch the session header. -/
theorem headersGet_buildHeaders_session (cfg : TimbalConfig) (opts : HeaderMap)
    (s : String)
    (h1 : truthy cfg.apiKey = false)
    (h2 : cfg.sessionToken = some s)
    (h3 : s.isEmpty = false)
    (hopts : ∀ kv ∈ opts, lowerName kv.1 ≠ lowerName "x-auth-token") :
    headersGet (buildHeaders cfg opts) "x-auth-token" = some s := by
  simp only [buildHeaders]
  rw [if_neg (by simp [h1]), if_pos (by simp [truthy, h2, h3]), h2,
    headersGet_headersSetAll_ne _ _ _ hopts]
  exact headersGet_headersSet_self _ _ _

/-- C6 counterexample: in a configuration where both `apiKey` and
`sessionToken` are set but the configured `defaultHeaders` themselves contain
an `x-auth-token` entry, `buildHeaders` does emit an `x-auth-token` header
(the default passes through untouched by the auth-priority step), refuting
the claim's universal quantification over configurations. -/
theorem buildHeaders_c6_counterexample :
    truthy cfgBothWithSessionDefault.apiKey = true
    ∧ truthy cfgBothWithSessionDefault.sessionToken = true
    ∧ headersGet (buildHeaders cfgBothWithSessionDefault []) "Authorization"
        = some "Bearer k"
    ∧ headersGet (buildHeaders cfgBothWithSessionDefault []) "x-auth-token"
        = some "evil" :=
  ⟨rfl, rfl, by decide, by decide⟩

/-- C6 (amended): provided the configured `defaultHeaders` do not themselves
carry the header in question, the auth-priority step of `buildHeaders` (before
per-call overrides) behaves as claimed — with both credentials set it emits
`Authorization: Bearer <apiKey>` and no `x-auth-token` header; with only a
`sessionToken` it emits `x-auth-token: <sessionToken>` (no proviso needed,
the set overrides any default); with neither it emits no auth header. -/
theorem buildHeaders_auth_priority_c6 (cfgBoth cfgSess cfgNone : TimbalConfig)
    (s : String)
    (hb1 : truthy cfgBoth.apiKey = true)
    (hb2 : truthy cfgBoth.sessionToken = true)
    (hbd : ∀ kv ∈ cfgBoth.defaultHeaders.getD [], lowerName kv.1 ≠ lowerName "x-auth-token")
    (hs1 : truthy cfgSess.apiKey = false)
    (hs2 : cfgSess.sessionToken = some s)
    (hs3 : s.isEmpty = false)
    (hn1 : truthy cfgNone.apiKey = false)
    (hn2 : truthy cfgNone.sessionToken = false)
    (hnd : ∀ kv ∈ cfgNone.defaultHeaders.getD [],
        lowerName kv.1 ≠ lowerName "Authorization" ∧ lowerName kv.1 ≠ lowerName "x-auth-token") :
    headersGet (buildHeaders cfgBoth []) "Authorization"
      = some ("Bearer " ++ cfgBoth.apiKey.getD "")
    ∧ headersGet (buildHeaders cfgBoth []) "x-auth-token" = none
    ∧ headersGet (buildHeaders cfgSess []) "x-auth-token" = some s
    ∧ headersGet (buildHeaders cfgNone []) "Authorization" = none
    ∧ headersGet (buildHeaders cfgNone []) "x-auth-token" = none := by
  refine ⟨?_, ?_, ?_, ?_, ?_⟩
  · unfold buildHeaders
    rw [headersSetAll_nil, if_pos hb1]
    exact headersGet_headersSet_self _ _ _
  · unfold buildHeaders
    rw [headersSetAll_nil, if_pos hb1,
      headersGet_headersSet_ne _ _ _ _ (by decide),
      headersGet_headersSetAll_ne _ _ _ hbd]
    rfl
  · exact headersGet_buildHeaders_session cfgSess [] s hs1 hs2 hs3 (by simp)
  · unfold buildHeaders
    rw [headersSetAll_nil, if_neg (by simp [hn1]), if_neg (by simp [hn2]),
      headersGet_headersSetAll_ne _ _ _ (fun kv hkv => (hnd kv hkv).1)]
    rfl
  · unfold buildHeaders
    rw [headersSetAll_nil, if_neg (by simp [hn1]), if_neg (by simp [hn2]),
      headersGet_headersSetAll_ne _ _ _ (fun kv hkv => (hnd kv hkv).2)]
    rfl

/-- C6 witness for the amended claim: concrete configurations with empty
default headers for each of the three scenarios. -/
theorem buildHeaders_auth_priority_c6_witness :
    truthy ({ apiKey := some "k", sessionToken := some "s" } : TimbalConfig).apiKey = true
    ∧ truthy ({ apiKey := some "k", sessionToken := some "s" } : TimbalConfig).sessionToken = true
    ∧ truthy ({ sessionToken := some "s" } : TimbalConfig).apiKey = false
    ∧ ({ sessionToken := some "s" } : TimbalConfig).sessionToken = some "s"
    ∧ "s".isEmpty = false
    ∧ truthy ({} : TimbalConfig).apiKey = false
    ∧ truthy ({} : TimbalConfig).sessionToken = false
    ∧ (headersGet (buildHeaders { apiKey := some "k", sessionToken := some "s" } []) "Authorization"
        = some ("Bearer " ++ (({ apiKey := some "k", sessionToken := some "s" } : TimbalConfig)).apiKey.getD "")
      ∧ headersGet (buildHeaders { apiKey := some "k", sessionToken := some "s" } []) "x-auth-token" = none
      ∧ headersGet (buildHeaders { sessionToken := some "s" } []) "x-auth-token" = some "s"
      ∧ headersGet (buildHeaders ({} : TimbalConfig) []) "Authorization" = none
      ∧ headersGet (buildHeaders ({} : TimbalConfig) []) "x-auth-token" = none) :=
  ⟨rfl, rfl, rfl, rfl, rfl, rfl, rfl,
    buildHeaders_auth_priority_c6
      { apiKey := some "k", sessionToken := some "s" } { sessionToken := some "s" } {} "s"
      rfl rfl (by simp) rfl rfl rfl rfl rfl (by simp)⟩

/-- C1: on a constructed client whose resolved `apiKey` is unusable (falsy),
`updateSessionToken` replaces only the `sessionToken` field of the live
configuration — every other configuration field is untouched, so the client is
not reconstructed — and the headers built for any subsequent request whose
per-call overrides do not touch the session header carry
`x-auth-token: <new token>`, even though the client was constructed with
`sessionToken: "tok1"`. -/
theorem updateSessionToken_c1 (auth : AuthConfig) (env : Env) (cfg0 : TimbalConfig)
    (t : Timbal) (tok : String) (opts : HeaderMap)
    (hc : Timbal.construct auth env cfg0 = Except.ok t)
    (hs1 : cfg0.sessionToken = some "tok1")
    (hak : truthy t.config.apiKey = false)
    (htok : tok.isEmpty = false)
    (hopts : ∀ kv ∈ opts, lowerName kv.1 ≠ lowerName "x-auth-token") :
    (t.updateSessionToken (some tok)).config.sessionToken = some tok
    ∧ (t.updateSessionToken (some tok)).config.apiKey = t.config.apiKey
    ∧ (t.updateSessionToken (some tok)).config.baseUrl = t.config.baseUrl
    ∧ (t.updateSessionToken (some tok)).config.defaultHeaders = t.config.defaultHeaders
    ∧ (t.updateSessionToken (some tok)).config.timeout = t.config.timeout
    ∧ (t.updateSessionToken (some tok)).config.retryAttempts = t.config.retryAttempts
    ∧ (t.updateSessionToken (some tok)).config.retryDelay = t.config.retryDelay
    ∧ headersGet (buildHeaders (t.updateSessionToken (some tok)).config opts)
        "x-auth-token" = some tok := by
  refine ⟨rfl, rfl, rfl, rfl, rfl, rfl, rfl, ?_⟩
  exact headersGet_buildHeaders_session (t.updateSessionToken (some tok)).config opts tok
    hak rfl htok hopts

/-- C1 witness: a client constructed with Timbal IAM enabled, no apiKey and
`sessionToken: "tok1"`, updated to `"tok2"`, with no per-call overrides. -/
theorem updateSessionToken_c1_witness :
    Timbal.construct { timbalIAM := true } {}
      { baseUrl := some "https://api.x.com", sessionToken := some "tok1" }
      = Except.ok ⟨{ baseUrl := some "https://api.x.com", sessionToken := some "tok1"
                     defaultHeaders := some [] }⟩
    ∧ ({ baseUrl := some "https://api.x.com", sessionToken := some "tok1" }
        : TimbalConfig).sessionToken = some "tok1"
    ∧ truthy (⟨{ baseUrl := some "https://api.x.com", sessionToken := some "tok1"
                 defaultHeaders := some [] }⟩ : Timbal).config.apiKey = false
    ∧ "tok2".isEmpty = false
    ∧ headersGet (buildHeaders
        ((⟨{ baseUrl := some "https://api.x.com", sessionToken := some "tok1"
             defaultHeaders := some [] }⟩ : Timbal).updateSessionToken
          (some "tok2")).config []) "x-auth-token" = some "tok2" := by
  refine ⟨rfl, rfl, rfl, rfl, ?_⟩
  exact (updateSessionToken_c1 { timbalIAM := true } {}
    { baseUrl := some "https://api.x.com", sessionToken := some "tok1" }
    ⟨{ baseUrl := some "https://api.x.com", sessionToken := some "tok1"
       defaultHeaders := some [] }⟩ "tok2" [] rfl rfl rfl rfl (by simp)).2.2.2.2.2.2.2

/-- C4: when `orgId` and `kbId` are absent from the params and no environment
defaults supply them, `query` fails with the synchronous configuration error,
and the outcome is the same for every transport behaviour — the underlying
exchange is never consulted. -/
theorem query_config_error_c4 (t : Timbal) (env : Env) (params : QueryParams)
    (beh : Nat → FetchBehavior)
    (horg : params.orgId = none) (henv1 : env.VITE_TIMBAL_ORG_ID = none)
    (hkb : params.kbId = none) (henv2 : env.VITE_TIMBAL_KB_ID = none) :
    t.query env params beh
      = QueryOutcome.configError "orgId and kbId are required for query" := by
  unfold Timbal.query
  rw [horg, henv1, hkb, henv2]
  rfl

/-- C4 witness: `query({ sql: "SELECT 1" })` with nothing configured. -/
theorem query_config_error_c4_witness :
    ({ sql := "SELECT 1" } : QueryParams).orgId = none
    ∧ ({} : Env).VITE_TIMBAL_ORG_ID = none
    ∧ ({ sql := "SELECT 1" } : QueryParams).kbId = none
    ∧ ({} : Env).VITE_TIMBAL_KB_ID = none
    ∧ (⟨{}⟩ : Timbal).query {} { sql := "SELECT 1" }
        (fun _ => FetchBehavior.reject RawError.abortError)
      = QueryOutcome.configError "orgId and kbId are required for query" :=
  ⟨rfl, rfl, rfl, rfl, query_config_error_c4 ⟨{}⟩ {} { sql := "SELECT 1" }
    (fun _ => FetchBehavior.reject RawError.abortError) rfl rfl rfl rfl⟩

/-- C7: a request whose first attempt yields a 404 response performs exactly
one exchange (attempt count 1, no backoff sleeps) and throws the classified
404 error unchanged — the error's `statusCode` is 404. -/
theorem request_404_no_retry_c7 (t : Timbal) (beh : Nat → FetchBehavior)
    (resp : Response)
    (hbeh : beh 0 = FetchBehavior.respond resp) (hst : resp.status = 404) :
    t.request beh
      = (Except.error (TimbalApiError.fromResponse 404 resp.bodyMessage), 1, []) := by
  unfold Timbal.request
  rw [requestAux, hbeh]
  simp [fetchOnce, Response.ok, hst, classifyTransportError, retryableError, retryGuard,
    TimbalApiError.fromResponse]

/-- C7 witness: a bare 404 response on the first attempt. -/
theorem request_404_no_retry_c7_witness :
    (fun _ : Nat => FetchBehavior.respond { status := 404 }) 0
      = FetchBehavior.respond { status := 404 }
    ∧ ({ status := 404 } : Response).status = 404
    ∧ (⟨{}⟩ : Timbal).request (fun _ => FetchBehavior.respond { status := 404 })
      = (Except.error
          (TimbalApiError.fromResponse 404 ({ status := 404 } : Response).bodyMessage),
         1, []) :=
  ⟨rfl, rfl, request_404_no_retry_c7 ⟨{}⟩ (fun _ => FetchBehavior.respond { status := 404 })
    { status := 404 } rfl rfl⟩

/-- One-step unfolding of `request` on a successful fetch: decode and wrap. -/
theorem requestAux_step_ok (cfg : TimbalConfig) (beh : Nat → FetchBehavior) (r : Nat)
    (resp : Response)
    (hf : (fetchOnce cfg (beh r)).outcome = Except.ok resp) :
    requestAux cfg beh r
      = (Except.ok { data := resp.jsonData, success := true, statusCode := resp.status },
         1, []) := by
  conv_lhs => rw [requestAux]
  rw [hf]

/-- One-step unfolding of `request` on a failed fetch: retry exactly when the
error is retryable and the budget allows, else propagate unchanged. -/
theorem requestAux_step_error (cfg : TimbalConfig) (beh : Nat → FetchBehavior) (r : Nat)
    (e : TimbalApiError)
    (hf : (fetchOnce cfg (beh r)).outcome = Except.error e) :
    requestAux cfg beh r
      = if (retryableError e && retryGuard cfg r) = true then
          ((requestAux cfg beh (r + 1)).1, (requestAux cfg beh (r + 1)).2.1 + 1,
            backoffDelay cfg r :: (requestAux cfg beh (r + 1)).2.2)
        else (Except.error e, 1, []) := by
  conv_lhs => rw [requestAux]
  rw [hf]
  dsimp only
  by_cases h : (retryableError e && retryGuard cfg r) = true
  · rw [dif_pos h, if_pos h]
  · rw [dif_neg h, if_neg h]

/-- One-step unfolding of `stream` on a failed fetch. -/
theorem streamAux_step_fetch_error (cfg : TimbalConfig) (beh : Nat → FetchBehavior)
    (r : Nat) (e : TimbalApiError)
    (hf : (fetchOnce cfg (beh r)).outcome = Except.error e) :
    streamAux cfg beh r
      = if (streamRetryable (RawError.apiError e) && retryGuard cfg r) = true then
          ((streamAux cfg beh (r + 1)).1, (streamAux cfg beh (r + 1)).2.1,
            (streamAux cfg beh (r + 1)).2.2.1 + 1,
            backoffDelay cfg r :: (streamAux cfg beh (r + 1)).2.2.2)
        else ([], Except.error (RawError.apiError e), 1, []) := by
  conv_lhs => rw [streamAux]
  rw [hf]
  dsimp only
  by_cases h : (streamRetryable (RawError.apiError e) && retryGuard cfg r) = true
  · rw [dif_pos h, if_pos h]
  · rw [dif_neg h, if_neg h]

/-- One-step unfolding of `stream` on a body that reads to completion. -/
theorem streamAux_step_done (cfg : TimbalConfig) (beh : Nat → FetchBehavior)
    (r : Nat) (resp : Response) (chunks : List String)
    (hf : (fetchOnce cfg (beh r)).outcome = Except.ok resp)
    (hbody : resp.body = some (chunks, StreamEnd.done)) :
    streamAux cfg beh r = (chunks, Except.ok (), 1, []) := by
  conv_lhs => rw [streamAux]
  rw [hf]
  dsimp only
  rw [hbody]

/-- One-step unfolding of `stream` on a body whose read fails mid-stream. -/
theorem streamAux_step_read_fail (cfg : TimbalConfig) (beh : Nat → FetchBehavior)
    (r : Nat) (resp : Response) (chunks : List String) (e : RawError)
    (hf : (fetchOnce cfg (beh r)).outcome = Except.ok resp)
    (hbody : resp.body = some (chunks, StreamEnd.fail e)) :
    streamAux cfg beh r
      = if (streamRetryable e && retryGuard cfg r) = true then
          (chunks ++ (streamAux cfg beh (r + 1)).1, (streamAux cfg beh (r + 1)).2.1,
            (streamAux cfg beh (r + 1)).2.2.1 + 1,
            backoffDelay cfg r :: (streamAux cfg beh (r + 1)).2.2.2)
        else (chunks, Except.error e, 1, []) := by
  conv_lhs => rw [streamAux]
  rw [hf]
  dsimp only
  rw [hbody]
  dsimp only
  by_cases h : (streamRetryable e && retryGuard cfg r) = true
  · rw [dif_pos h, if_pos h]
  · rw [dif_neg h, if_neg h]

/-- With `retryAttempts = some N` and every attempt answering 503, the
remaining run from attempt index `r` (where `r + budget = N`) performs
`budget + 1` fetches and ends in an error with statusCode 503. -/
theorem requestAux_always_503 (cfg : TimbalConfig) (beh : Nat → FetchBehavior) (N : Nat)
    (hN : cfg.retryAttempts = some N)
    (hbeh : ∀ k, ∃ resp : Response, beh k = FetchBehavior.respond resp ∧ resp.status = 503) :
    ∀ budget r, r + budget = N →
      (requestAux cfg beh r).2.1 = budget + 1
      ∧ ∃ e, (requestAux cfg beh r).1 = Except.error e ∧ e.statusCode = 503 := by
  intro budget
  induction budget with
  | zero =>
    intro r hr
    obtain ⟨resp, hb, hs⟩ := hbeh r
    have hf : (fetchOnce cfg (beh r)).outcome
        = Except.error (TimbalApiError.fromResponse 503 resp.bodyMessage) := by
      rw [hb]
      simp [fetchOnce, Response.ok, hs, classifyTransportError]
    have hrN : r = N := by omega
    rw [requestAux_step_error cfg beh r _ hf,
      if_neg (by simp [retryGuard, hN, hrN])]
    exact ⟨rfl, TimbalApiError.fromResponse 503 resp.bodyMessage, rfl, rfl⟩
  | succ k ih =>
    intro r hr
    obtain ⟨resp, hb, hs⟩ := hbeh r
    have hf : (fetchOnce cfg (beh r)).outcome
        = Except.error (TimbalApiError.fromResponse 503 resp.bodyMessage) := by
      rw [hb]
      simp [fetchOnce, Response.ok, hs, classifyTransportError]
    have hguard : retryGuard cfg r = true := by
      simp only [retryGuard, hN]
      simp only [decide_eq_true_eq]
      omega
    rw [requestAux_step_error cfg beh r _ hf,
      if_pos (by simp [retryableError, TimbalApiError.fromResponse, hguard])]
    obtain ⟨ih1, e, he, hsc⟩ := ih (r + 1) (by omega)
    exact ⟨by simp only [ih1], e, by simp only [he], hsc⟩

/-- C2: with `retryAttempts = N` configured and a server answering 503 on
every attempt, `request` performs exactly `N + 1` exchange attempts and the
error finally thrown has `statusCode = 503`. -/
theorem request_retry_503_c2 (t : Timbal) (beh : Nat → FetchBehavior) (N : Nat)
    (hN : t.config.retryAttempts = some N)
    (hbeh : ∀ k, ∃ resp : Response, beh k = FetchBehavior.respond resp ∧ resp.status = 503) :
    (t.request beh).2.1 = N + 1
    ∧ ∃ e, (t.request beh).1 = Except.error e ∧ e.statusCode = 503 :=
  requestAux_always_503 t.config beh N hN hbeh N 0 (by omega)

/-- C2 witness: `retryAttempts = 2` and an always-503 server give 3 attempts. -/
theorem request_retry_503_c2_witness :
    (⟨{ retryAttempts := some 2 }⟩ : Timbal).config.retryAttempts = some 2
    ∧ (((⟨{ retryAttempts := some 2 }⟩ : Timbal).request
          (fun _ => FetchBehavior.respond { status := 503 })).2.1 = 2 + 1
      ∧ ∃ e, ((⟨{ retryAttempts := some 2 }⟩ : Timbal).request
          (fun _ => FetchBehavior.respond { status := 503 })).1 = Except.error e
          ∧ e.statusCode = 503) :=
  ⟨rfl, request_retry_503_c2 ⟨{ retryAttempts := some 2 }⟩
    (fun _ => FetchBehavior.respond { status := 503 }) 2 rfl
    (fun _ => ⟨{ status := 503 }, rfl, rfl⟩)⟩

/-- C10: with `retryAttempts` left unconfigured, the retry guard is false at
every attempt count (the JS comparison against `undefined` is always false),
so a failing first attempt makes `request` propagate the error after exactly
one exchange, and `stream` likewise ends after one exchange with the error
propagated to the consumer. -/
theorem request_stream_no_retry_c10 (t : Timbal) (beh : Nat → FetchBehavior)
    (e : TimbalApiError) (k : Nat)
    (hN : t.config.retryAttempts = none)
    (hf : (fetchOnce t.config (beh 0)).outcome = Except.error e) :
    retryGuard t.config k = false
    ∧ t.request beh = (Except.error e, 1, [])
    ∧ t.stream beh = ([], Except.error (RawError.apiError e), 1, []) := by
  refine ⟨by simp [retryGuard, hN], ?_, ?_⟩
  · show requestAux t.config beh 0 = _
    rw [requestAux_step_error _ _ _ _ hf, if_neg (by simp [retryGuard, hN])]
  · show streamAux t.config beh 0 = _
    rw [streamAux_step_fetch_error _ _ _ _ hf, if_neg (by simp [retryGuard, hN])]

/-- C10 witness: default (empty) configuration with a timeout abort on the
first attempt — a retryable error class, still never retried. -/
theorem request_stream_no_retry_c10_witness :
    (⟨{}⟩ : Timbal).config.retryAttempts = none
    ∧ (fetchOnce (⟨{}⟩ : Timbal).config
        ((fun _ => FetchBehavior.reject RawError.abortError) 0)).outcome
      = Except.error { message := "Request timeout", statusCode := 0
                       code := ErrorCode.TIMEOUT_ERROR }
    ∧ (retryGuard (⟨{}⟩ : Timbal).config 0 = false
      ∧ (⟨{}⟩ : Timbal).request (fun _ => FetchBehavior.reject RawError.abortError)
        = (Except.error { message := "Request timeout", statusCode := 0
                          code := ErrorCode.TIMEOUT_ERROR }, 1, [])
      ∧ (⟨{}⟩ : Timbal).stream (fun _ => FetchBehavior.reject RawError.abortError)
        = ([], Except.error (RawError.apiError
            { message := "Request timeout", statusCode := 0
              code := ErrorCode.TIMEOUT_ERROR }), 1, [])) :=
  ⟨rfl, rfl, request_stream_no_retry_c10 ⟨{}⟩
    (fun _ => FetchBehavior.reject RawError.abortError) _ 0 rfl rfl⟩

/-- C3: a failure raised while incrementally reading a stream's body that
classifies as retryable (`TIMEOUT_ERROR`, `NETWORK_ERROR`, or status ≥ 500)
while the attempt count is within the configured budget restarts the entire
stream from the top of the endpoint at the next attempt index, after the
computed linear-backoff delay, with the already-yielded chunks preceding the
restarted stream's output — the final outcome is the restarted stream's, so
the error does not propagate to the consumer. -/
theorem stream_midread_retry_c3 (t : Timbal) (beh : Nat → FetchBehavior) (r : Nat)
    (resp : Response) (chunks : List String) (ae : TimbalApiError) (N : Nat)
    (hN : t.config.retryAttempts = some N)
    (hb : beh r = FetchBehavior.respond resp)
    (hok : resp.ok = true)
    (hbody : resp.body = some (chunks, StreamEnd.fail (RawError.apiError ae)))
    (hretry : retryableError ae = true)
    (hbudget : r < N) :
    streamAux t.config beh r
      = (chunks ++ (streamAux t.config beh (r + 1)).1,
         (streamAux t.config beh (r + 1)).2.1,
         (streamAux t.config beh (r + 1)).2.2.1 + 1,
         backoffDelay t.config r :: (streamAux t.config beh (r + 1)).2.2.2) := by
  have hf : (fetchOnce t.config (beh r)).outcome = Except.ok resp := by
    rw [hb]
    simp [fetchOnce, hok]
  rw [streamAux_step_read_fail _ _ _ _ _ _ hf hbody,
    if_pos (by simp [streamRetryable, hretry, retryGuard, hN, hbudget])]

/-- C3 witness: one chunk is delivered, then the read raises a 503-classified
error; with `retryAttempts = 1` the stream restarts at attempt 1 after the
backoff delay. -/
theorem stream_midread_retry_c3_witness :
    (⟨{ retryAttempts := some 1, retryDelay := some 100 }⟩ : Timbal).config.retryAttempts
      = some 1
    ∧ (fun _ : Nat => FetchBehavior.respond
        { status := 200
          body := some (["he"], StreamEnd.fail (RawError.apiError
            { message := "boom", statusCode := 503, code := ErrorCode.httpStatus 503 })) }) 0
      = FetchBehavior.respond
        { status := 200
          body := some (["he"], StreamEnd.fail (RawError.apiError
            { message := "boom", statusCode := 503, code := ErrorCode.httpStatus 503 })) }
    ∧ ({ status := 200
         body := some (["he"], StreamEnd.fail (RawError.apiError
           { message := "boom", statusCode := 503, code := ErrorCode.httpStatus 503 })) }
        : Response).ok = true
    ∧ retryableError { message := "boom", statusCode := 503, code := ErrorCode.httpStatus 503 }
      = true
    ∧ 0 < 1
    ∧ streamAux (⟨{ retryAttempts := some 1, retryDelay := some 100 }⟩ : Timbal).config
        (fun _ => FetchBehavior.respond
          { status := 200
            body := some (["he"], StreamEnd.fail (RawError.apiError
              { message := "boom", statusCode := 503, code := ErrorCode.httpStatus 503 })) }) 0
      = ("he" :: (streamAux
            (⟨{ retryAttempts := some 1, retryDelay := some 100 }⟩ : Timbal).config
            (fun _ => FetchBehavior.respond
              { status := 200
                body := some (["he"], StreamEnd.fail (RawError.apiError
                  { message := "boom", statusCode := 503
                    code := ErrorCode.httpStatus 503 })) }) 1).1,
         (streamAux (⟨{ retryAttempts := some 1, retryDelay := some 100 }⟩ : Timbal).config
            (fun _ => FetchBehavior.respond
              { status := 200
                body := some (["he"], StreamEnd.fail (RawError.apiError
                  { message := "boom", statusCode := 503
                    code := ErrorCode.httpStatus 503 })) }) 1).2.1,
         (streamAux (⟨{ retryAttempts := some 1, retryDelay := some 100 }⟩ : Timbal).config
            (fun _ => FetchBehavior.respond
              { status := 200
                body := some (["he"], StreamEnd.fail (RawError.apiError
                  { message := "boom", statusCode := 503
                    code := ErrorCode.httpStatus 503 })) }) 1).2.2.1 + 1,
         backoffDelay (⟨{ retryAttempts := some 1, retryDelay := some 100 }⟩ : Timbal).config 0
           :: (streamAux (⟨{ retryAttempts := some 1, retryDelay := some 100 }⟩ : Timbal).config
            (fun _ => FetchBehavior.respond
              { status := 200
                body := some (["he"], StreamEnd.fail (RawError.apiError
                  { message := "boom", statusCode := 503
                    code := ErrorCode.httpStatus 503 })) }) 1).2.2.2) :=
  ⟨rfl, rfl, rfl, rfl, by decide,
    stream_midread_retry_c3 ⟨{ retryAttempts := some 1, retryDelay := some 100 }⟩ _ 0 _ ["he"] _ 1
      rfl rfl rfl rfl rfl (by decide)⟩
